import Mathlib

/-!
Verification of the data-access layer of the Bayt al-Hikma personal
library manager (src/app.py, src/models.py).

The storage of the repository is one SQLite table of books accessed through
SQLAlchemy; the service layer exposes three operations over it:
`add_book`, `get_all_books` (cached with a 60-unit TTL) and
`delete_book`.  We embed the table as a list of `Book` rows together
with the storage-assigned primary-key counter, and model a
storage-layer failure (`SQLAlchemyError`) as an explicit boolean input
to every operation: when it is `true` the session raises and the
`except` branch of the source runs.
-/

/-- Row of the `books` table (models.py, class `Book`).  Columns
`isbn`, `category`, `publication_year` and `status` are nullable, so
they are carried as `Option`; `id` is the integer primary key. -/
structure Book where
  id : Nat
  title : String
  author : String
  isbn : Option String
  category : Option String
  publication_year : Option Int
  status : Option String
deriving DecidableEq, Repr

/-- State of the storage layer: the rows of the single `books` table in
storage order, plus the next primary-key value SQLite will auto-assign
on insert. -/
structure LibraryDB where
  books : List Book
  nextId : Nat
deriving DecidableEq, Repr

/-- Freshly created database: no rows, first auto-assigned id is 1. -/
def LibraryDB.empty : LibraryDB := ⟨[], 1⟩

/-- Embedding of `add_book` (app.py lines 10-25).  The Python
signature is `add_book(title, author, isbn="", category="",
publication_year=None)`; the state and the error flag are extra
arguments of the embedding.  On success a `Book` is constructed with
the given fields, no `status` argument, and committed: the column
default gives it `status = "available"` and the storage layer assigns
the next primary key.  On a storage error the function returns
`False` and the session leaves the table unchanged. -/
def add_book (s : LibraryDB) (err : Bool) (title author : String)
    (isbn : String := "") (category : String := "")
    (publication_year : Option Int := none) : Bool × LibraryDB :=
  if err then
    (false, s)
  else
    (true,
      { books := s.books ++
          [{ id := s.nextId
             title := title
             author := author
             isbn := some isbn
             category := some category
             publication_year := publication_year
             status := some "available" }]
        nextId := s.nextId + 1 })

/-- Embedding of the body of `get_all_books` (app.py lines 29-45),
without the cache decorator.  It queries all rows, rebuilds each row
as a plain record of the seven columns, and returns the resulting
table (`pd.DataFrame(books_data) if books_data else pd.DataFrame()`;
both branches are the same list here).  On a storage error it returns
the empty table. -/
def get_all_books (s : LibraryDB) (err : Bool) : List Book :=
  if err then
    []
  else
    let books_data := s.books.map (fun book =>
      { id := book.id
        title := book.title
        author := book.author
        isbn := book.isbn
        category := book.category
        publication_year := book.publication_year
        status := book.status : Book })
    books_data

/-- Cache state of the `@st.cache_data(ttl=60)` decorator on
`get_all_books`: either empty or one entry holding the cached
snapshot and the time it was computed (the function takes no
arguments, so there is a single cache slot). -/
abbrev ListCache := Option (List Book × Nat)

/-- Embedding of `get_all_books.clear()` (app.py lines 108 and 128):
drops the cached entry. -/
def clearCache (_c : ListCache) : ListCache := none

/-- Embedding of a call to the decorated `get_all_books` at time
`now`: if a cached entry younger than 60 time units exists it is
returned without touching storage; otherwise the body runs against
the store and its result is cached at time `now`. -/
def get_all_books_cached (now : Nat) (c : ListCache) (s : LibraryDB)
    (err : Bool) : List Book × ListCache :=
  match c with
  | some (v, t) =>
      if now - t < 60 then (v, some (v, t))
      else
        let r := get_all_books s err
        (r, some (r, now))
  | none =>
      let r := get_all_books s err
      (r, some (r, now))

/-- Embedding of `delete_book` (app.py lines 48-59):
`session.query(Book).get(book_id)` fetches the row with that primary
key (the first — and, the key being unique, only — row whose `id`
matches); if one exists it is deleted and the commit returns `True`,
otherwise `False`.  On a storage error the function returns `False`
and the table is unchanged. -/
def delete_book (s : LibraryDB) (err : Bool) (book_id : Nat) : Bool × LibraryDB :=
  if err then
    (false, s)
  else
    match s.books.find? (fun b => b.id == book_id) with
    | some _ =>
        (true, { s with books := s.books.eraseP (fun b => b.id == book_id) })
    | none => (false, s)

/-- Well-formedness guaranteed by the storage layer: primary keys are
pairwise distinct and below the auto-assignment counter. -/
def WF (s : LibraryDB) : Prop :=
  (s.books.map Book.id).Nodup ∧ ∀ b ∈ s.books, b.id < s.nextId

/-- One user interaction as dispatched by `main` (app.py): an add with
its form fields, a delete with its id, or a view.  Each carries the
storage-error flag of its session. -/
inductive Op where
  | add (title author isbn category : String) (publication_year : Option Int) (err : Bool)
  | delete (id : Nat) (err : Bool)
  | view (err : Bool)
deriving DecidableEq, Repr

/-- Effect of one interaction on the stored table (`view` only reads). -/
def applyOp (s : LibraryDB) : Op → LibraryDB
  | .add t a i c y e => (add_book s e t a i c y).2
  | .delete i e => (delete_book s e i).2
  | .view _ => s

/-- Effect of a sequence of interactions on the stored table. -/
def runOps (s : LibraryDB) : List Op → LibraryDB
  | [] => s
  | op :: ops => runOps (applyOp s op) ops

/-- Column type as declared in models.py (`Integer` or `String`). -/
inductive ColType where
  | integer
  | text
deriving DecidableEq, Repr

/-- Description of one column of the schema. -/
structure ColumnSpec where
  name : String
  ty : ColType
  primaryKey : Bool
  autoAssigned : Bool
  nullable : Bool
  defaultValue : Option String
deriving DecidableEq, Repr

/-- Columns of the `books` table as declared in models.py lines 11-19:
`primary_key=True` makes `id` an auto-assigned integer key,
`nullable=False` is set on `title` and `author` only, and `status`
carries the column default "available". -/
def booksColumns : List ColumnSpec :=
  [{ name := "id", ty := .integer, primaryKey := true, autoAssigned := true,
     nullable := false, defaultValue := none },
   { name := "title", ty := .text, primaryKey := false, autoAssigned := false,
     nullable := false, defaultValue := none },
   { name := "author", ty := .text, primaryKey := false, autoAssigned := false,
     nullable := false, defaultValue := none },
   { name := "isbn", ty := .text, primaryKey := false, autoAssigned := false,
     nullable := true, defaultValue := none },
   { name := "category", ty := .text, primaryKey := false, autoAssigned := false,
     nullable := true, defaultValue := none },
   { name := "publication_year", ty := .integer, primaryKey := false,
     autoAssigned := false, nullable := true, defaultValue := none },
   { name := "status", ty := .text, primaryKey := false, autoAssigned := false,
     nullable := true, defaultValue := some "available" }]

/-- The full storage schema declared by models.py: the tables created
by `Base.metadata.create_all`, each with its columns.  There is one
mapped class, `Book`, with `__tablename__ = "books"`. -/
def librarySchema : List (String × List ColumnSpec) :=
  [("books", booksColumns)]

/-- Schema asserted by the spec, written from its words: "one table
with columns `id` (integer, primary key, auto-assigned), `title`
(text, not null), `author` (text, not null), `isbn` (text, nullable),
`category` (text, nullable), `publication_year` (integer, nullable),
`status` (text, nullable, default \x22available\x22)". -/
def specSchema : List (String × List ColumnSpec) :=
  [("books",
    [{ name := "id", ty := .integer, primaryKey := true, autoAssigned := true,
       nullable := false, defaultValue := none },
     { name := "title", ty := .text, primaryKey := false, autoAssigned := false,
       nullable := false, defaultValue := none },
     { name := "author", ty := .text, primaryKey := false, autoAssigned := false,
       nullable := false, defaultValue := none },
     { name := "isbn", ty := .text, primaryKey := false, autoAssigned := false,
       nullable := true, defaultValue := none },
     { name := "category", ty := .text, primaryKey := false, autoAssigned := false,
       nullable := true, defaultValue := none },
     { name := "publication_year", ty := .integer, primaryKey := false,
       autoAssigned := false, nullable := true, defaultValue := none },
     { name := "status", ty := .text, primaryKey := false, autoAssigned := false,
       nullable := true, defaultValue := some "available" }])]

/-! ## Helper lemmas about deletion -/

/-- Erasing the row with primary key `book_id` from a table whose keys
are pairwise distinct leaves no row with that key. -/
theorem eraseP_id_not_mem (book_id : Nat) :
    ∀ l : List Book, (l.map Book.id).Nodup →
      ∀ b ∈ l.eraseP (fun x => x.id == book_id), b.id ≠ book_id := by
  intro l
  induction l with
  | nil => intro _ b hb; simp at hb
  | cons a l ih =>
    intro hnd b hb
    rw [List.map_cons, List.nodup_cons] at hnd
    by_cases ha : a.id = book_id
    · rw [List.eraseP_cons_of_pos (by simpa using ha)] at hb
      intro hbid
      refine hnd.1 ?_
      rw [ha, ← hbid]
      exact List.mem_map_of_mem Book.id hb
    · rw [List.eraseP_cons_of_neg (by simpa using ha)] at hb
      rcases List.mem_cons.1 hb with rfl | hb
      · exact ha
      · exact ih hnd.2 b hb

/-- Rows whose primary key differs from the erased one survive the
erasure. -/
theorem mem_eraseP_of_id_ne (book_id : Nat) :
    ∀ l : List Book, ∀ b ∈ l, b.id ≠ book_id →
      b ∈ l.eraseP (fun x => x.id == book_id) := by
  intro l
  induction l with
  | nil => intro b hb; simp at hb
  | cons a l ih =>
    intro b hb hbne
    by_cases ha : a.id = book_id
    · rw [List.eraseP_cons_of_pos (by simpa using ha)]
      rcases List.mem_cons.1 hb with rfl | hb
      · exact absurd ha hbne
      · exact hb
    · rw [List.eraseP_cons_of_neg (by simpa using ha)]
      rcases List.mem_cons.1 hb with rfl | hb
      · exact List.mem_cons_self _ _
      · exact List.mem_cons_of_mem _ (ih b hb hbne)

/-- Body of `get_all_books` on a healthy session: the row-by-row
rebuild is the identity, so the snapshot is the table in storage
order. -/
theorem get_all_books_ok (s : LibraryDB) : get_all_books s false = s.books := by
  show s.books.map (fun book => book) = s.books
  exact List.map_id s.books

/-- Body of `get_all_books` on a failing session returns the empty
snapshot. -/
theorem get_all_books_err (s : LibraryDB) : get_all_books s true = [] := rfl

/-- Deletion on a well-formed table leaves no row with the deleted
key, whether or not one existed. -/
theorem delete_book_no_id (s : LibraryDB) (book_id : Nat)
    (hnd : (s.books.map Book.id).Nodup) :
    ∀ b ∈ (delete_book s false book_id).2.books, b.id ≠ book_id := by
  rcases hsome : s.books.find? (fun x => x.id == book_id) with _ | b1
  · intro b hb
    rw [List.find?_eq_none] at hsome
    simp only [delete_book, Bool.false_eq_true, if_false] at hb
    rw [(List.find?_eq_none).2 hsome] at hb
    simpa using hsome b hb
  · intro b hb
    simp only [delete_book, Bool.false_eq_true, if_false, hsome] at hb
    exact eraseP_id_not_mem book_id s.books hnd b hb

/-- Deletion when no row carries the key: `session.query(Book).get`
finds nothing, so the operation reports failure and the table is
untouched. -/
theorem delete_book_not_found (s : LibraryDB) (book_id : Nat)
    (hno : ∀ b ∈ s.books, b.id ≠ book_id) :
    delete_book s false book_id = (false, s) := by
  have hfind : s.books.find? (fun x => x.id == book_id) = none :=
    List.find?_eq_none.2 (fun x hx => by simpa using hno x hx)
  simp [delete_book, hfind]

/-- Deletion when a row carries the key: the fetched row is deleted
and the operation reports success. -/
theorem delete_book_found (s : LibraryDB) (book_id : Nat)
    (hex : ∃ b ∈ s.books, b.id = book_id) :
    delete_book s false book_id =
      (true, { s with books := s.books.eraseP (fun x => x.id == book_id) }) := by
  rcases hex with ⟨b0, hb0, hid⟩
  rcases hsome : s.books.find? (fun x => x.id == book_id) with _ | b1
  · rw [List.find?_eq_none] at hsome
    exact absurd (by simpa using hid) (hsome b0 hb0)
  · simp [delete_book, hsome]

/-! ## C3 -/

/-- C3: `add` inserts exactly one new record, with `status =
"available"` and the storage-assigned id, and returns true on a
successful commit; when the storage layer rejects the write it
returns false and the table is unchanged. -/
theorem add_book_inserts_one_available (s : LibraryDB)
    (title author isbn category : String) (py : Option Int) :
    ((add_book s false title author isbn category py).1 = true ∧
     (add_book s false title author isbn category py).2.books =
       s.books ++
         [{ id := s.nextId, title := title, author := author,
            isbn := some isbn, category := some category,
            publication_year := py, status := some "available" }] ∧
     (add_book s false title author isbn category py).2.nextId = s.nextId + 1) ∧
    add_book s true title author isbn category py = (false, s) := by
  simp [add_book]

/-! ## C5 -/

/-- C5: `list` takes no input beyond the store itself and returns the
snapshot of all current records exactly in storage order (no sort);
when no records exist, or when the storage layer fails, the snapshot
is empty, and a storage failure yields a value rather than an
exception — the operation is a single total query, never retried. -/
theorem get_all_books_spec (s : LibraryDB) (err : Bool) :
    get_all_books s err = if err then [] else s.books := by
  cases err
  · show s.books.map (fun book => book) = s.books
    exact List.map_id s.books
  · rfl

/-! ## C7 -/

/-- C7: after the caller clears the cache (as `main` does right after
every successful add or delete), the next `list` call recomputes its
snapshot from storage — for whatever cache entry was there before —
and in particular a `list` right after a successful `add` shows the
new record. -/
theorem list_after_clear_recomputes (c : ListCache) (t : Nat) (s : LibraryDB)
    (err : Bool) (title author isbn category : String) (py : Option Int) :
    get_all_books_cached t (clearCache c) s err =
      (get_all_books s err, some (get_all_books s err, t)) ∧
    (get_all_books_cached t (clearCache c)
        (add_book s false title author isbn category py).2 false).1 =
      s.books ++
        [{ id := s.nextId, title := title, author := author,
           isbn := some isbn, category := some category,
           publication_year := py, status := some "available" }] := by
  refine ⟨rfl, ?_⟩
  show get_all_books (add_book s false title author isbn category py).2 false = _
  rw [get_all_books_ok]
  simp [add_book]

/-! ## C9 -/

/-- C9: the storage schema is exactly one table, `books`, whose
columns are id (integer, primary key, auto-assigned), title (text,
not null), author (text, not null), isbn (text, nullable), category
(text, nullable), publication_year (integer, nullable) and status
(text, nullable, default "available"): the declared schema coincides
with the one the spec describes. -/
theorem schema_matches_spec : librarySchema = specSchema := rfl

/-! ## C10 -/

/-- C10: an `add` through the default path (no explicit isbn or
category) stores the empty string in both columns — a present value,
not a null — even though the schema declares both columns nullable. -/
theorem default_add_stores_empty_not_null (s : LibraryDB) (title author : String) :
    ∃ b : Book,
      (add_book s false title author).2.books = s.books ++ [b] ∧
      b.isbn = some "" ∧ b.category = some "" ∧
      b.isbn ≠ none ∧ b.category ≠ none ∧
      (booksColumns.find? (fun col => col.name == "isbn")).map
        ColumnSpec.nullable = some true ∧
      (booksColumns.find? (fun col => col.name == "category")).map
        ColumnSpec.nullable = some true := by
  refine ⟨{ id := s.nextId, title := title, author := author, isbn := some "",
            category := some "", publication_year := none,
            status := some "available" },
          ?_, rfl, rfl, by simp, by simp, by decide, by decide⟩
  simp [add_book]

/-! ## C1 -/

/-- C1: for every valid (title, author) pair, an `add` followed by
cache invalidation and `list` yields a snapshot that is the previous
snapshot plus exactly one new record carrying that title, that
author, and `status = "available"`. -/
theorem add_then_list_one_new (s : LibraryDB) (c : ListCache) (t : Nat)
    (title author isbn category : String) (py : Option Int)
    (_ht : title ≠ "") (_ha : author ≠ "") :
    (add_book s false title author isbn category py).1 = true ∧
    (get_all_books_cached t (clearCache c)
        (add_book s false title author isbn category py).2 false).1 =
      get_all_books s false ++
        [{ id := s.nextId, title := title, author := author,
           isbn := some isbn, category := some category,
           publication_year := py, status := some "available" }] := by
  refine ⟨rfl, ?_⟩
  show get_all_books (add_book s false title author isbn category py).2 false = _
  rw [get_all_books_ok, get_all_books_ok]
  simp [add_book]

/-- Concrete run of `add_then_list_one_new` on the fresh database with
the sample book of the spec. -/
theorem add_then_list_one_new_witness :
    (add_book LibraryDB.empty false "Kitab al-Manazir" "Ibn al-Haytham"
        "" "Science" (some 1021)).1 = true ∧
    (get_all_books_cached 0 (clearCache none)
        (add_book LibraryDB.empty false "Kitab al-Manazir" "Ibn al-Haytham"
            "" "Science" (some 1021)).2 false).1 =
      get_all_books LibraryDB.empty false ++
        [{ id := 1, title := "Kitab al-Manazir", author := "Ibn al-Haytham",
           isbn := some "", category := some "Science",
           publication_year := some 1021, status := some "available" }] :=
  add_then_list_one_new LibraryDB.empty none 0 "Kitab al-Manazir"
    "Ibn al-Haytham" "" "Science" (some 1021) (by decide) (by decide)

/-! ## C2 -/

/-- C2: `delete(id)` returns true and removes the record with that id
(keeping every other record) when one exists, and returns false with
the table untouched when none does; the scenario of the spec — book 1 as
the only record, delete(1) true then empty then false — instantiates
this. -/
theorem delete_book_correct (s : LibraryDB) (book_id : Nat)
    (hnd : (s.books.map Book.id).Nodup) :
    ((∃ b ∈ s.books, b.id = book_id) →
      (delete_book s false book_id).1 = true ∧
      (∀ b ∈ (delete_book s false book_id).2.books, b.id ≠ book_id) ∧
      (∀ b ∈ s.books, b.id ≠ book_id →
        b ∈ (delete_book s false book_id).2.books)) ∧
    ((∀ b ∈ s.books, b.id ≠ book_id) → delete_book s false book_id = (false, s)) := by
  refine ⟨fun hex => ?_, fun hno => delete_book_not_found s book_id hno⟩
  have hstep := delete_book_found s book_id hex
  refine ⟨by rw [hstep], delete_book_no_id s book_id hnd, fun b hb hbne => ?_⟩
  rw [hstep]
  exact mem_eraseP_of_id_ne book_id s.books b hb hbne

/-- Concrete run of `delete_book_correct` on the scenario of the spec:
after adding book 1 to the fresh database, delete(1) succeeds and
leaves no row with id 1, and delete(1) on the now-empty table
fails. -/
theorem delete_book_correct_witness :
    (delete_book
        ⟨[{ id := 1, title := "Kitab al-Manazir", author := "Ibn al-Haytham",
            isbn := some "", category := some "Science",
            publication_year := some 1021, status := some "available" }], 2⟩
        false 1).1 = true ∧
    (∀ b ∈ (delete_book
        ⟨[{ id := 1, title := "Kitab al-Manazir", author := "Ibn al-Haytham",
            isbn := some "", category := some "Science",
            publication_year := some 1021, status := some "available" }], 2⟩
        false 1).2.books, b.id ≠ 1) ∧
    delete_book ⟨[], 2⟩ false 1 = (false, ⟨[], 2⟩) := by
  refine ⟨?_, ?_, ?_⟩
  · exact ((delete_book_correct _ 1 (by decide)).1
      ⟨_, List.mem_singleton_self _, rfl⟩).1
  · exact ((delete_book_correct _ 1 (by decide)).1
      ⟨_, List.mem_singleton_self _, rfl⟩).2.1
  · exact (delete_book_correct ⟨[], 2⟩ 1 (by decide)).2 (by simp)

/-! ## C4 -/

/-- C4: for an existing id, `delete` followed by cache invalidation
and `list` yields a snapshot with no record of that id; for a
nonexistent id, `delete` returns false, the stored table is
unchanged, and so is the next snapshot. -/
theorem delete_then_list (s : LibraryDB) (c : ListCache) (t : Nat)
    (book_id : Nat) (hnd : (s.books.map Book.id).Nodup) :
    ((∃ b ∈ s.books, b.id = book_id) →
      ∀ b ∈ (get_all_books_cached t (clearCache c)
                (delete_book s false book_id).2 false).1, b.id ≠ book_id) ∧
    ((∀ b ∈ s.books, b.id ≠ book_id) →
      (delete_book s false book_id).1 = false ∧
      (delete_book s false book_id).2 = s ∧
      (get_all_books_cached t (clearCache c)
          (delete_book s false book_id).2 false).1 = get_all_books s false) := by
  constructor
  · intro _ b hb
    have hb' : b ∈ (delete_book s false book_id).2.books := by
      have : (get_all_books_cached t (clearCache c)
          (delete_book s false book_id).2 false).1 =
          (delete_book s false book_id).2.books :=
        get_all_books_ok _
      rwa [this] at hb
    exact delete_book_no_id s book_id hnd b hb'
  · intro hno
    have hstep := delete_book_not_found s book_id hno
    exact ⟨by rw [hstep], by rw [hstep], by rw [hstep]; rfl⟩

/-- Concrete run of `delete_then_list`: deleting the only record (id
1) and listing gives a snapshot with no id-1 row, and deleting id 7
from the same table fails and changes nothing. -/
theorem delete_then_list_witness :
    (∀ b ∈ (get_all_books_cached 0 (clearCache none)
        (delete_book
          ⟨[{ id := 1, title := "Kitab al-Manazir", author := "Ibn al-Haytham",
              isbn := some "", category := some "Science",
              publication_year := some 1021, status := some "available" }], 2⟩
          false 1).2 false).1, b.id ≠ 1) ∧
    (delete_book
        ⟨[{ id := 1, title := "Kitab al-Manazir", author := "Ibn al-Haytham",
            isbn := some "", category := some "Science",
            publication_year := some 1021, status := some "available" }], 2⟩
        false 7).1 = false := by
  constructor
  · exact (delete_then_list _ none 0 1 (by decide)).1
      ⟨_, List.mem_singleton_self _, rfl⟩
  · exact ((delete_then_list _ none 0 7 (by decide)).2 (by decide)).1

/-! ## C6 -/

/-- C6 fails as stated: with a cache entry computed at time 0 over the
one-book table, a first `list` at time 59 is a cache hit, but a
second `list` at time 60 — only 1 time unit later, with no
intervening mutation or invalidation — falls outside the 60-unit TTL
of the cached entry, re-queries storage, and (here, because the storage layer
errors on that query) returns a different snapshot. -/
theorem two_lists_within_window_differ :
    59 ≤ 60 ∧ 60 - 59 < 60 ∧
    ¬ ((get_all_books_cached 60
          (get_all_books_cached 59
            (some ([{ id := 1, title := "A", author := "B", isbn := some "",
                      category := some "", publication_year := none,
                      status := some "available" }], 0))
            ⟨[{ id := 1, title := "A", author := "B", isbn := some "",
                category := some "", publication_year := none,
                status := some "available" }], 2⟩ false).2
          ⟨[{ id := 1, title := "A", author := "B", isbn := some "",
              category := some "", publication_year := none,
              status := some "available" }], 2⟩ true).1 =
        (get_all_books_cached 59
          (some ([{ id := 1, title := "A", author := "B", isbn := some "",
                    category := some "", publication_year := none,
                    status := some "available" }], 0))
          ⟨[{ id := 1, title := "A", author := "B", isbn := some "",
              category := some "", publication_year := none,
              status := some "available" }], 2⟩ false).1) := by
  refine ⟨by decide, by decide, ?_⟩
  decide

/-- C6 amended: when the first of the two `list` calls itself
computes its snapshot from storage (the cache being empty, e.g. just
invalidated), any second call within 60 time units — regardless of
the state of the store or a storage error at that moment — returns the
identical snapshot and leaves the cache entry untouched: it is served
from the cache without re-querying storage. -/
theorem cached_list_idempotent_from_fresh (s sNext : LibraryDB)
    (t1 t2 : Nat) (e1 e2 : Bool) (_h1 : t1 ≤ t2) (h2 : t2 - t1 < 60) :
    (get_all_books_cached t2 (get_all_books_cached t1 none s e1).2
        sNext e2).1 = (get_all_books_cached t1 none s e1).1 ∧
    (get_all_books_cached t2 (get_all_books_cached t1 none s e1).2
        sNext e2).2 = (get_all_books_cached t1 none s e1).2 := by
  simp [get_all_books_cached, h2]

/-- Concrete run of `cached_list_idempotent_from_fresh`: a first call
at time 0 on the fresh database and a second call 30 time units later
agree. -/
theorem cached_list_idempotent_from_fresh_witness :
    (get_all_books_cached 30 (get_all_books_cached 0 none
        LibraryDB.empty false).2 LibraryDB.empty false).1 =
      (get_all_books_cached 0 none LibraryDB.empty false).1 :=
  (cached_list_idempotent_from_fresh LibraryDB.empty LibraryDB.empty
    0 30 false false (by decide) (by decide)).1

/-! ## C8 -/

/-- One interaction keeps the status of every stored record at
"available": `add` creates its record with the column default and
never passes a status, `delete` only removes a row, `view` does not
write. -/
theorem applyOp_preserves_status (s : LibraryDB) (op : Op)
    (h : ∀ b ∈ s.books, b.status = some "available") :
    ∀ b ∈ (applyOp s op).books, b.status = some "available" := by
  cases op with
  | add ti au i c y e =>
    cases e with
    | false =>
      intro b hb
      simp only [applyOp, add_book, Bool.false_eq_true, if_false,
        List.mem_append, List.mem_singleton] at hb
      rcases hb with hb | rfl
      · exact h b hb
      · rfl
    | true => exact h
  | delete i e =>
    cases e with
    | false =>
      intro b hb
      simp only [applyOp, delete_book, Bool.false_eq_true, if_false] at hb
      rcases hsome : s.books.find? (fun x => x.id == i) with _ | b1 <;>
        rw [hsome] at hb
      · exact h b hb
      · exact h b (List.mem_of_mem_eraseP hb)
    | true => exact h
  | view e => exact h

/-- C8: starting from any table whose records all carry status
"available" (in particular the fresh empty one), every record
reachable by any sequence of add / list / delete interactions still
carries status "available": it is set at creation and no in-scope
operation ever changes it. -/
theorem status_always_available (s : LibraryDB) (ops : List Op)
    (h : ∀ b ∈ s.books, b.status = some "available") :
    ∀ b ∈ (runOps s ops).books, b.status = some "available" := by
  induction ops generalizing s with
  | nil => exact h
  | cons op ops ih => exact ih (applyOp s op) (applyOp_preserves_status s op h)

/-- Concrete run of `status_always_available`: after an add, a view
and a failed delete on the fresh database, the surviving record still
has status "available". -/
theorem status_always_available_witness :
    (Book.mk 1 "Kitab al-Manazir" "Ibn al-Haytham" (some "") (some "Science")
        (some 1021) (some "available")).status = some "available" :=
  status_always_available LibraryDB.empty
    [Op.add "Kitab al-Manazir" "Ibn al-Haytham" "" "Science" (some 1021) false,
     Op.view false, Op.delete 9 false]
    (by simp [LibraryDB.empty])
    (Book.mk 1 "Kitab al-Manazir" "Ibn al-Haytham" (some "") (some "Science")
      (some 1021) (some "available"))
    (by decide)
